import Mathlib

/-
Shallow embedding of the Resource Shortage and Allocation Engine of the
Disaster-Management-System repository (src/resource_manager.py,
src/database_manager.py, src/src/managers/resource_manager.py,
src/src/managers/donation_manager.py).

Conventions:
  - Python integers are modelled as Int (quantities may be negative, since the
    code never validates sign on allocation quantities).
  - Database rows are Lean structures; the database is a record of lists, in
    the row order the corresponding SELECT returns them.
  - execute_update is modelled as always succeeding, except that the
    donation_allocations INSERT may be refused by the store: the DB carries a
    failInsert predicate standing for a mysql Error caught by execute_update
    (which then returns False). All counterexample states set it to false.
  - The float comparison needed > available * 1.5 is modelled exactly as
    3 * available < 2 * needed (equivalent over the integers; the float
    product is exact for all magnitudes the system handles).
  - round(x, 2) on the shortage ratio is display-only float rounding and is
    not modelled; only the infinity sentinel (None here, float inf in the
    code) versus a numeric value matters to the claims.
-/

namespace DisasterRelief

/-- Donation status strings of the donations table. -/
inductive DStatus where
  | Pending
  | Received
  | Allocated
  | Distributed
deriving DecidableEq

/-- Severity labels assigned by get_critical_shortages. -/
inductive Severity where
  | Normal
  | High
  | Critical
deriving DecidableEq

/-- A row of resource_types (get_resource_type_list). -/
structure ResourceType where
  resource_type_id : Nat
  type_name : String
deriving DecidableEq

/-- A row of resources, joined with type and camp metadata as returned by
DatabaseManager.get_resource_shortages. -/
structure Resource where
  resource_id : Nat
  camp_id : Nat
  resource_type_id : Nat
  quantity_available : Int
  quantity_needed : Int
  type_name : String
deriving DecidableEq

/-- A row of donations, joined with its resource type name as returned by
DatabaseManager.get_all_donations. -/
structure Donation where
  donation_id : Nat
  donor_name : String
  resource_type_id : Nat
  quantity_donated : Int
  status : DStatus
  type_name : String
deriving DecidableEq

/-- A row of donation_allocations. -/
structure Allocation where
  donation_id : Nat
  camp_id : Nat
  quantity_allocated : Int
deriving DecidableEq

/-- The database state. Lists are in the row order the corresponding query
returns (donations in donation_date descending order, resources in table
order). failInsert models execute_update returning False on the
donation_allocations INSERT (a caught mysql Error). -/
structure DB where
  resource_types : List ResourceType
  resources : List Resource
  donations : List Donation
  allocations : List Allocation
  failInsert : Nat → Nat → Int → Bool

/-- Shortage amount of a resource row: quantity_needed - quantity_available,
the sort key used both by the SQL ORDER BY and the Python sort key lambda. -/
def shortageKey (s : Resource) : Int :=
  s.quantity_needed - s.quantity_available

/-- Descending-by-shortage order: x precedes y when the key of y is at most
the key of x. -/
def shortageGE (x y : Resource) : Prop :=
  shortageKey y ≤ shortageKey x

instance : DecidableRel shortageGE :=
  fun x y => inferInstanceAs (Decidable (shortageKey y ≤ shortageKey x))

instance : IsTotal Resource shortageGE :=
  ⟨fun x y => (le_total (shortageKey y) (shortageKey x)).imp id id⟩

instance : IsTrans Resource shortageGE :=
  ⟨fun _ _ _ hxy hyz => le_trans hyz hxy⟩

/-- Stable descending sort by shortage amount. Models both the SQL
ORDER BY (quantity_needed - quantity_available) DESC and the Python
list.sort(key=..., reverse=True), which is documented stable: rows with
equal shortage keep their incoming order. Neither sort breaks ties by
camp id. -/
def sortShortagesDesc (l : List Resource) : List Resource :=
  List.insertionSort shortageGE l

/-- DatabaseManager.get_resource_shortages: rows with
quantity_needed > quantity_available, ordered by shortage descending. -/
def DB.get_resource_shortages (db : DB) : List Resource :=
  sortShortagesDesc
    (db.resources.filter (fun r => decide (r.quantity_available < r.quantity_needed)))

/-- DatabaseManager.update_resource_quantity: UPDATE resources SET both
quantities WHERE resource_id matches; execute_update returns True. -/
def DB.update_resource_quantity (db : DB) (resource_id : Nat)
    (available needed : Int) : DB × Bool :=
  ({ db with
      resources := db.resources.map (fun r =>
        if r.resource_id = resource_id then
          { r with quantity_available := available, quantity_needed := needed }
        else r) },
   true)

/-- DatabaseManager.allocate_donation: INSERT INTO donation_allocations.
Returns False without a write when the store refuses the insert. -/
def DB.allocate_donation (db : DB) (donation_id camp_id : Nat)
    (quantity : Int) : DB × Bool :=
  if db.failInsert donation_id camp_id quantity then
    (db, false)
  else
    ({ db with allocations := db.allocations ++ [⟨donation_id, camp_id, quantity⟩] },
     true)

/-- UPDATE donations SET status = Allocated WHERE donation_id matches. -/
def DB.set_donation_allocated (db : DB) (donation_id : Nat) : DB :=
  { db with
      donations := db.donations.map (fun d =>
        if d.donation_id = donation_id then
          { d with status := DStatus.Allocated }
        else d) }

/-- Sum of quantity_allocated over the allocation rows of one donation: the
derived allocated_quantity of DonationManager.get_donations_summary. -/
def allocatedSum (db : DB) (donation_id : Nat) : Int :=
  ((db.allocations.filter (fun a => a.donation_id == donation_id)).map
    (fun a => a.quantity_allocated)).sum

/-- Outcome messages of ResourceManager.allocate_donation_to_camp. -/
inductive AllocMsg where
  | donationNotFound
  | exceedsDonationAmount
  | allocated
  | failedToAllocate
deriving DecidableEq

/-- The success flag and message of allocate_donation_to_camp. -/
structure AllocResult where
  success : Bool
  msg : AllocMsg
deriving DecidableEq

/-- ResourceManager.allocate_donation_to_camp: looks the donation up in
get_all_donations, rejects only quantity > quantity_donated, inserts the
allocation row, and sets status Allocated when quantity_donated - quantity
is at most zero. It reads no allocation history and never writes the
resources table. -/
def allocate_donation_to_camp (db : DB) (donation_id camp_id : Nat)
    (quantity : Int) : DB × AllocResult :=
  match db.donations.find? (fun d => d.donation_id == donation_id) with
  | none => (db, ⟨false, AllocMsg.donationNotFound⟩)
  | some donation =>
    if donation.quantity_donated < quantity then
      (db, ⟨false, AllocMsg.exceedsDonationAmount⟩)
    else
      match db.allocate_donation donation_id camp_id quantity with
      | (db2, true) =>
        (if donation.quantity_donated - quantity ≤ 0 then
           db2.set_donation_allocated donation_id
         else db2,
         ⟨true, AllocMsg.allocated⟩)
      | (db2, false) =>
        (db2, ⟨false, AllocMsg.failedToAllocate⟩)

/-- Outcome messages of ResourceManager.update_resource_quantities. -/
inductive UpdateMsg where
  | negativeQuantities
  | updated
  | updateFailed
deriving DecidableEq

/-- The success flag and message of update_resource_quantities. -/
structure UpdateResult where
  success : Bool
  msg : UpdateMsg
deriving DecidableEq

/-- ResourceManager.update_resource_quantities: rejects negative values
before any store write, otherwise delegates to update_resource_quantity. -/
def update_resource_quantities (db : DB) (resource_id : Nat)
    (available needed : Int) : DB × UpdateResult :=
  if available < 0 ∨ needed < 0 then
    (db, ⟨false, UpdateMsg.negativeQuantities⟩)
  else
    let res := db.update_resource_quantity resource_id available needed
    if res.2 then (res.1, ⟨true, UpdateMsg.updated⟩)
    else (res.1, ⟨false, UpdateMsg.updateFailed⟩)

/-- Inner loop of auto_allocate_donations over the sorted shortages of one
donation, threading the database, the in-memory quantity_available tracker
and the allocations_made counter. The tracker guard models the break. -/
def allocLoop (donation_id : Nat) :
    List Resource → DB → Int → Nat → DB × Int × Nat
  | [], db, tracker, count => (db, tracker, count)
  | s :: rest, db, tracker, count =>
    if tracker ≤ 0 then (db, tracker, count)
    else
      let needed := s.quantity_needed - s.quantity_available
      let amount := min tracker needed
      if 0 < amount then
        let res := allocate_donation_to_camp db donation_id s.camp_id amount
        if res.2.success then
          allocLoop donation_id rest res.1 (tracker - amount) (count + 1)
        else
          allocLoop donation_id rest res.1 tracker count
      else
        allocLoop donation_id rest db tracker count

/-- One donation of the auto_allocate_donations outer loop: the tracker is
initialised to quantity_donated (not to the derived remaining quantity),
the shortage view is recomputed from the current database, restricted to the
resource type of the donation and stable-sorted descending by shortage. -/
def processDonation (db : DB) (d : Donation) (count : Nat) : DB × Nat :=
  let shortages := db.get_resource_shortages
  let relevant := shortages.filter (fun s => s.resource_type_id == d.resource_type_id)
  let sorted := sortShortagesDesc relevant
  let r := allocLoop d.donation_id sorted db d.quantity_donated count
  (r.1, r.2.2)

/-- Outer loop of auto_allocate_donations over the snapshot of pending
donations. -/
def autoLoop : List Donation → DB → Nat → DB × Nat
  | [], db, count => (db, count)
  | d :: rest, db, count =>
    let r := processDonation db d count
    autoLoop rest r.1 r.2

/-- The success flag and allocation count reported by
auto_allocate_donations (the Python message string interpolates the count). -/
structure AutoResult where
  success : Bool
  allocations_made : Nat
deriving DecidableEq

/-- ResourceManager.auto_allocate_donations: snapshots the donations whose
status is Pending, then runs the greedy matcher; the single return path
reports success together with the count of allocations made. -/
def auto_allocate_donations (db : DB) : DB × AutoResult :=
  let pend := db.donations.filter (fun d => decide (d.status = DStatus.Pending))
  let r := autoLoop pend db 0
  (r.1, ⟨true, r.2⟩)

/-- The shortage_ratio value attached by get_critical_shortages: the exact
quotient needed / available when available is positive, and the infinity
sentinel (none here, float inf in the code) otherwise. The display rounding
round(x, 2) is not modelled. -/
def shortage_ratio_val (available needed : Int) : Option ℚ :=
  if 0 < available then some ((needed : ℚ) / (available : ℚ)) else none

/-- The severity decision of the get_critical_shortages loop as a pure
function of available and needed (the ClassifySeverity of the spec):
Critical when needed > available * 2, else High when
needed > available * 1.5 (modelled exactly as 3 * available < 2 * needed),
else Normal. -/
def classify_severity (available needed : Int) : Severity :=
  if available * 2 < needed then Severity.Critical
  else if 3 * available < 2 * needed then Severity.High
  else Severity.Normal

/-- ClassifySeverity as the specification words it: a zero-available,
positive-need shortage is Critical with the infinity sentinel; otherwise the
2x and 1.5x thresholds apply. Used only to compare with classify_severity. -/
def classify_severity_spec (available needed : Int) : Severity :=
  if available = 0 ∧ 0 < needed then Severity.Critical
  else if 2 * available < needed then Severity.Critical
  else if 3 * available < 2 * needed then Severity.High
  else Severity.Normal

/-- A shortage row annotated by get_critical_shortages with its ratio value
and severity label. -/
structure CriticalShortage where
  row : Resource
  ratio_val : Option ℚ
  shortage_severity : Severity
deriving DecidableEq

/-- The loop body of ResourceManager.get_critical_shortages: keeps rows
whose needed exceeds double the available (Critical) or 1.5 times the
available (High); Normal rows are dropped. -/
def get_critical_rows : List Resource → List CriticalShortage
  | [] => []
  | s :: rest =>
    if s.quantity_available * 2 < s.quantity_needed then
      ⟨s, shortage_ratio_val s.quantity_available s.quantity_needed, Severity.Critical⟩
        :: get_critical_rows rest
    else if 3 * s.quantity_available < 2 * s.quantity_needed then
      ⟨s, shortage_ratio_val s.quantity_available s.quantity_needed, Severity.High⟩
        :: get_critical_rows rest
    else
      get_critical_rows rest

/-- ResourceManager.get_critical_shortages. -/
def get_critical_shortages (db : DB) : List CriticalShortage :=
  get_critical_rows db.get_resource_shortages

/-- Count of shortage rows grouped by type_name in first-appearance order
(the Python dict insertion order). -/
def bumpTypeCount : List (String × Nat) → String → List (String × Nat)
  | [], k => [(k, 1)]
  | (k', c) :: rest, k =>
    if k' = k then (k', c + 1) :: rest
    else (k', c) :: bumpTypeCount rest k

/-- The resource statistics record of get_resource_statistics. -/
structure ResourceStats where
  total_resource_types : Nat
  total_shortages : Nat
  critical_shortages : Nat
  resources_by_type : List (String × Nat)
  top_shortages : List Resource
deriving DecidableEq

/-- The zero-valued skeleton both copies of get_resource_statistics start
from. -/
def zeroResourceStats : ResourceStats :=
  ⟨0, 0, 0, [], []⟩

/-- The store as seen by the statistics readers. up carries the database;
sqlError stands for a connected store whose queries raise mysql Error,
which execute_query catches, returning an empty list; down stands for a
store with no connection, where the cursor access raises an AttributeError
that execute_query does not catch. -/
inductive Store where
  | up (db : DB)
  | sqlError
  | down

/-- get_all_donations through execute_query under each store condition. -/
def read_donations : Store → Except Unit (List Donation)
  | Store.up db => Except.ok db.donations
  | Store.sqlError => Except.ok []
  | Store.down => Except.error ()

/-- get_resource_type_list through execute_query under each store
condition. -/
def read_resource_types : Store → Except Unit (List ResourceType)
  | Store.up db => Except.ok db.resource_types
  | Store.sqlError => Except.ok []
  | Store.down => Except.error ()

/-- get_resource_shortages through execute_query under each store
condition. -/
def read_shortages : Store → Except Unit (List Resource)
  | Store.up db => Except.ok db.get_resource_shortages
  | Store.sqlError => Except.ok []
  | Store.down => Except.error ()

/-- The root-copy ResourceManager.get_resource_statistics
(src/resource_manager.py): no try block of its own, so an uncaught store
error propagates to the caller; each read that merely returns an empty list
leaves the corresponding counters at zero. -/
def get_resource_statisticsS (st : Store) : Except Unit ResourceStats := do
  let types ← read_resource_types st
  let shortages ← read_shortages st
  let critShortages ← read_shortages st
  pure
    { total_resource_types := types.length
      total_shortages := shortages.length
      critical_shortages := (get_critical_rows critShortages).length
      resources_by_type := shortages.foldl (fun acc s => bumpTypeCount acc s.type_name) []
      top_shortages := (sortShortagesDesc shortages).take 5 }

/-- The src/src/managers copy of get_resource_statistics: the same
computation inside a try whose except returns the zero-valued skeleton
(all reads go through the one store, so a failure at the first read leaves
every field at its initial zero). -/
def get_resource_statistics_nestedS (st : Store) : ResourceStats :=
  match get_resource_statisticsS st with
  | Except.error _ => zeroResourceStats
  | Except.ok s => s

/-- Per-key donation count and total quantity in first-appearance order
(the Python dict insertion order), used for donations_by_type and the donor
totals. -/
def bumpKeyTotal : List (String × Nat × Int) → String → Int → List (String × Nat × Int)
  | [], k, q => [(k, 1, q)]
  | (k', c, t) :: rest, k, q =>
    if k' = k then (k', c + 1, t + q) :: rest
    else (k', c, t) :: bumpKeyTotal rest k q

/-- Descending stable sort of donor aggregates by total quantity, as
sorted(donor_stats.items(), key=total_quantity, reverse=True). -/
def donorGE (x y : String × Nat × Int) : Prop :=
  y.2.2 ≤ x.2.2

instance : DecidableRel donorGE :=
  fun x y => inferInstanceAs (Decidable (y.2.2 ≤ x.2.2))

/-- The donation statistics record of
DonationManager.get_donation_statistics. The recent_donations field, which
depends on the wall clock, is not modelled. -/
structure DonationStats where
  total_donations : Nat
  pending_donations : Nat
  received_donations : Nat
  allocated_donations : Nat
  total_donated_quantity : Int
  donations_by_type : List (String × Nat × Int)
  top_donors : List (String × Nat × Int)
deriving DecidableEq

/-- The aggregates get_donation_statistics computes from the donation
rows. -/
def donationStatsOf (ds : List Donation) : DonationStats :=
  { total_donations := ds.length
    pending_donations := (ds.filter (fun d => decide (d.status = DStatus.Pending))).length
    received_donations := (ds.filter (fun d => decide (d.status = DStatus.Received))).length
    allocated_donations := (ds.filter (fun d => decide (d.status = DStatus.Allocated))).length
    total_donated_quantity := (ds.map (fun d => d.quantity_donated)).sum
    donations_by_type :=
      ds.foldl (fun acc d => bumpKeyTotal acc d.type_name d.quantity_donated) []
    top_donors :=
      (List.insertionSort donorGE
        (ds.foldl (fun acc d => bumpKeyTotal acc d.donor_name d.quantity_donated) [])).take 5 }

/-- The zero-valued aggregates obtained from an empty donation list. -/
def zeroDonationStats : DonationStats :=
  ⟨0, 0, 0, 0, 0, [], []⟩

/-- DonationManager.get_donation_statistics: its first statement is the
get_all_donations read and it has no try block, so an uncaught store error
propagates; a read that returns an empty list yields the zero-valued
aggregates. -/
def get_donation_statisticsS (st : Store) : Except Unit DonationStats := do
  let ds ← read_donations st
  pure (donationStatsOf ds)

/-! Concrete states used by the scenario claims. -/

/-- A store that refuses no insert. -/
def noFail : Nat → Nat → Int → Bool := fun _ _ _ => false

/-- The scenario state of spec section 8: Camp 1 has 20 of type 1 and needs
100, Camp 2 has 80 and needs 100, and a 50-unit donation of type 1 is
Pending. -/
def scenarioDB : DB :=
  { resource_types := [⟨1, "Water"⟩]
    resources := [⟨1, 1, 1, 20, 100, "Water"⟩, ⟨2, 2, 1, 80, 100, "Water"⟩]
    donations := [⟨1, "Donor", 1, 50, DStatus.Pending, "Water"⟩]
    allocations := []
    failInsert := noFail }

/-- C1: the claim asserts a successful allocation increments the target
resource row; the code never writes the resources table. On the scenario
state an allocation of the full 50 units to camp 1 succeeds, yet camp 1
still has quantity_available 20 (the claim predicts 70). -/
theorem C1_counterexample :
    (allocate_donation_to_camp scenarioDB 1 1 50).2.success = true ∧
    ((allocate_donation_to_camp scenarioDB 1 1 50).1.resources.map
        Resource.quantity_available) = [20, 80] := by
  decide

/-- C1 (amended): AllocateDonationToCamp never writes the Inventory Store:
for every database state and every call, the resources table after the call
is exactly the resources table before it. -/
theorem C1_no_inventory_write (db : DB) (donation_id camp_id : Nat)
    (quantity : Int) :
    (allocate_donation_to_camp db donation_id camp_id quantity).1.resources
      = db.resources := by
  unfold allocate_donation_to_camp DB.allocate_donation DB.set_donation_allocated
  split
  · rfl
  · split
    · rfl
    · split <;> rename_i db2 heq <;> split at heq
      · simp at heq
      · injection heq with h1 h2
        subst h1
        split <;> rfl
      · injection heq with h1 h2
        subst h1
        rfl
      · simp at heq

/-- C5: the severity decision of get_critical_shortages agrees everywhere
with ClassifySeverity as the spec words it; available = 0 with positive
need yields Critical with the infinity sentinel; and the three boundary
evaluations of the spec hold. -/
theorem C5_classify_severity_correct :
    (∀ a n : Int, classify_severity a n = classify_severity_spec a n) ∧
    (∀ n : Int, 0 < n →
      classify_severity 0 n = Severity.Critical ∧
      shortage_ratio_val 0 n = none) ∧
    classify_severity 100 150 = Severity.Normal ∧
    classify_severity 100 151 = Severity.High ∧
    classify_severity 100 201 = Severity.Critical := by
  refine ⟨?_, ?_, by decide, by decide, by decide⟩
  · intro a n
    unfold classify_severity classify_severity_spec
    split_ifs <;> first | rfl | omega
  · intro n hn
    constructor
    · unfold classify_severity
      rw [if_pos (show (0 : Int) * 2 < n by omega)]
    · unfold shortage_ratio_val
      rw [if_neg (show ¬ (0 : Int) < 0 by omega)]

/-- C5 witness: the zero-available branch at n = 5. -/
theorem C5_witness :
    0 < (5 : Int) ∧
    (classify_severity 0 5 = Severity.Critical ∧
      shortage_ratio_val 0 5 = none) :=
  ⟨by decide, C5_classify_severity_correct.2.1 5 (by decide)⟩

/-- State for the C10 witness: one resource row. -/
def c10db : DB :=
  { resource_types := [⟨1, "Water"⟩]
    resources := [⟨1, 1, 1, 5, 5, "Water"⟩]
    donations := []
    allocations := []
    failInsert := noFail }

/-- C10: update_resource_quantities with a negative available or needed
fails before any store write: the database is returned unchanged together
with the negative-quantities failure result. -/
theorem C10_negative_rejected (db : DB) (resource_id : Nat)
    (available needed : Int) (h : available < 0 ∨ needed < 0) :
    update_resource_quantities db resource_id available needed
      = (db, ⟨false, UpdateMsg.negativeQuantities⟩) := by
  unfold update_resource_quantities
  rw [if_pos h]

/-- C10 witness: a negative available quantity on a concrete state. -/
theorem C10_witness :
    update_resource_quantities c10db 1 (-1) 4
      = (c10db, ⟨false, UpdateMsg.negativeQuantities⟩) :=
  C10_negative_rejected c10db 1 (-1) 4 (Or.inl (by decide))

/-- State for C3: a donation of 30 that already has an allocation row of 30
(derived remaining 0, status Allocated), as in the spec scenario. -/
def c3db : DB :=
  { resource_types := [⟨1, "Water"⟩]
    resources := []
    donations := [⟨1, "Donor", 1, 30, DStatus.Allocated, "Water"⟩]
    allocations := [⟨1, 1, 30⟩]
    failInsert := noFail }

/-- C3: the claim predicts InvalidQuantity for any further allocation on a
fully allocated donation; the code checks the request only against
quantity_donated and ignores existing allocation rows, so a further call
for 10 units succeeds and appends a second allocation row. -/
theorem C3_counterexample :
    (allocate_donation_to_camp c3db 1 2 10).2.success = true ∧
    (allocate_donation_to_camp c3db 1 2 10).1.allocations
      = [⟨1, 1, 30⟩, ⟨1, 2, 10⟩] := by
  decide

/-- Helper: when the found donation total is below the request, the call is
rejected with no state change. -/
lemma allocate_exceeds (db : DB) (donation_id camp_id : Nat) (quantity : Int)
    (d : Donation)
    (hfind : db.donations.find? (fun x => x.donation_id == donation_id) = some d)
    (hq : d.quantity_donated < quantity) :
    allocate_donation_to_camp db donation_id camp_id quantity
      = (db, ⟨false, AllocMsg.exceedsDonationAmount⟩) := by
  unfold allocate_donation_to_camp
  split
  · rename_i heq
    rw [hfind] at heq
    simp at heq
  · rename_i donation heq
    rw [hfind] at heq
    injection heq with hd
    subst hd
    rw [if_pos hq]

/-- Helper: with the donation found, the request not above the donation
total, and the store refusing the insert, the call reports the insert
failure and the state is unchanged. -/
lemma allocate_fail_insert (db : DB) (donation_id camp_id : Nat)
    (quantity : Int) (d : Donation)
    (hfind : db.donations.find? (fun x => x.donation_id == donation_id) = some d)
    (hq : ¬ d.quantity_donated < quantity)
    (hbad : db.failInsert donation_id camp_id quantity = true) :
    allocate_donation_to_camp db donation_id camp_id quantity
      = (db, ⟨false, AllocMsg.failedToAllocate⟩) := by
  unfold allocate_donation_to_camp DB.allocate_donation
  split
  · rename_i heq
    rw [hfind] at heq
    simp at heq
  · rename_i donation heq
    rw [hfind] at heq
    injection heq with hd
    subst hd
    rw [if_neg hq]
    rw [if_pos hbad]

/-- Helper: when the donation is found, the request is at most the donation
total and the store accepts the insert, the call succeeds and appends
exactly the one allocation row. -/
lemma allocate_appends (db : DB) (donation_id camp_id : Nat) (quantity : Int)
    (d : Donation)
    (hfind : db.donations.find? (fun x => x.donation_id == donation_id) = some d)
    (hq : quantity ≤ d.quantity_donated)
    (hok : db.failInsert donation_id camp_id quantity = false) :
    (allocate_donation_to_camp db donation_id camp_id quantity).2.success = true ∧
    (allocate_donation_to_camp db donation_id camp_id quantity).1.allocations
      = db.allocations ++ [⟨donation_id, camp_id, quantity⟩] := by
  unfold allocate_donation_to_camp DB.allocate_donation DB.set_donation_allocated
  constructor <;>
    (split
     · rename_i heq
       rw [hfind] at heq
       simp at heq
     · rename_i donation heq
       rw [hfind] at heq
       injection heq with hd
       subst hd
       rw [if_neg (show ¬ d.quantity_donated < quantity by omega)]
       rw [if_neg (show ¬ db.failInsert donation_id camp_id quantity = true by simp [hok])]
       all_goals
         (split <;> rename_i db2 heq2 <;>
           (injection heq2 with h1 h2
            subst h1
            first
            | rfl
            | (split <;> rfl))))

/-- C3 (amended): AllocateDonationToCamp rejects a request exactly when the
quantity exceeds the donation total quantity_donated (not the derived
remaining quantity): in that case it fails with the exceeds-amount message
and no state change. -/
theorem C3_exceeds_total_rejected (db : DB) (donation_id camp_id : Nat)
    (quantity : Int) (d : Donation)
    (hfind : db.donations.find? (fun x => x.donation_id == donation_id) = some d)
    (hq : d.quantity_donated < quantity) :
    allocate_donation_to_camp db donation_id camp_id quantity
      = (db, ⟨false, AllocMsg.exceedsDonationAmount⟩) :=
  allocate_exceeds db donation_id camp_id quantity d hfind hq

/-- C3 witness: asking for 31 units of the 30-unit donation fails. -/
theorem C3_witness :
    allocate_donation_to_camp c3db 1 2 31
      = (c3db, ⟨false, AllocMsg.exceedsDonationAmount⟩) :=
  C3_exceeds_total_rejected c3db 1 2 31
    ⟨1, "Donor", 1, 30, DStatus.Allocated, "Water"⟩ (by decide) (by decide)

/-- State for C4: a fresh 30-unit Pending donation with no allocations. -/
def c4db : DB :=
  { resource_types := [⟨1, "Water"⟩]
    resources := []
    donations := [⟨1, "Donor", 1, 30, DStatus.Pending, "Water"⟩]
    allocations := []
    failInsert := noFail }

/-- C4: the claim predicts InvalidQuantity with no state change for a zero
or negative quantity; the code has no positivity check, so both a zero and
a negative request succeed and each appends an allocation row carrying that
quantity. -/
theorem C4_counterexample :
    ((allocate_donation_to_camp c4db 1 1 0).2.success = true ∧
      (allocate_donation_to_camp c4db 1 1 0).1.allocations = [⟨1, 1, 0⟩]) ∧
    ((allocate_donation_to_camp c4db 1 1 (-5)).2.success = true ∧
      (allocate_donation_to_camp c4db 1 1 (-5)).1.allocations = [⟨1, 1, -5⟩]) := by
  decide

/-- C4 (amended): for an existing donation and any quantity at most
quantity_donated, including zero and negative quantities, the call succeeds
(when the store accepts the insert) and appends an Allocation row with that
quantity: the state does change. -/
theorem C4_nonpositive_accepted (db : DB) (donation_id camp_id : Nat)
    (quantity : Int) (d : Donation)
    (hfind : db.donations.find? (fun x => x.donation_id == donation_id) = some d)
    (hq : quantity ≤ d.quantity_donated)
    (hok : db.failInsert donation_id camp_id quantity = false) :
    (allocate_donation_to_camp db donation_id camp_id quantity).2.success = true ∧
    (allocate_donation_to_camp db donation_id camp_id quantity).1.allocations
      = db.allocations ++ [⟨donation_id, camp_id, quantity⟩] :=
  allocate_appends db donation_id camp_id quantity d hfind hq hok

/-- C4 witness: the zero-quantity call on the fresh donation succeeds and
appends a zero allocation row. -/
theorem C4_witness :
    (allocate_donation_to_camp c4db 1 1 0).2.success = true ∧
    (allocate_donation_to_camp c4db 1 1 0).1.allocations
      = c4db.allocations ++ [⟨1, 1, 0⟩] :=
  C4_nonpositive_accepted c4db 1 1 0
    ⟨1, "Donor", 1, 30, DStatus.Pending, "Water"⟩ (by decide) (by decide) (by decide)

/-- State for C2, first part: a 30-unit donation. -/
def c2db : DB :=
  { resource_types := [⟨1, "Water"⟩]
    resources := []
    donations := [⟨1, "Donor", 1, 30, DStatus.Pending, "Water"⟩]
    allocations := []
    failInsert := noFail }

/-- State for C2, second part: a 50-unit donation allocated in two calls of
30 and 20. -/
def c2db2 : DB :=
  { resource_types := [⟨1, "Water"⟩]
    resources := []
    donations := [⟨1, "Donor", 1, 50, DStatus.Pending, "Water"⟩]
    allocations := []
    failInsert := noFail }

/-- C2: both halves of the claimed invariant fail on reachable states.
Allocating 30 twice from the 30-unit donation drives the allocation sum to
60, above quantity_donated; and allocating 30 then 20 from the 50-unit
donation reaches sum = quantity_donated = 50 while the status is still
Pending (each call compares only its own quantity against the total, so the
status update never fires). -/
theorem C2_counterexample :
    (allocatedSum
        ((allocate_donation_to_camp
            ((allocate_donation_to_camp c2db 1 1 30).1) 1 1 30).1) 1 = 60) ∧
    (allocatedSum
        ((allocate_donation_to_camp
            ((allocate_donation_to_camp c2db2 1 1 30).1) 1 2 20).1) 1 = 50 ∧
      ((allocate_donation_to_camp
            ((allocate_donation_to_camp c2db2 1 1 30).1) 1 2 20).1.donations.map
          Donation.status) = [DStatus.Pending]) := by
  decide

/-- C2 (amended): what does hold of a single call: every successful
AllocateDonationToCamp appends exactly one Allocation row, whose quantity
is at most the donation total quantity_donated of the donation it found.
Sums over several calls may exceed quantity_donated, and reaching the total
does not force status Allocated. -/
theorem C2_single_call_bounded (db : DB) (donation_id camp_id : Nat)
    (quantity : Int)
    (h : (allocate_donation_to_camp db donation_id camp_id quantity).2.success = true) :
    ∃ d, db.donations.find? (fun x => x.donation_id == donation_id) = some d ∧
      quantity ≤ d.quantity_donated ∧
      (allocate_donation_to_camp db donation_id camp_id quantity).1.allocations
        = db.allocations ++ [⟨donation_id, camp_id, quantity⟩] := by
  cases hfind : db.donations.find? (fun x => x.donation_id == donation_id) with
  | none =>
    unfold allocate_donation_to_camp at h
    rw [hfind] at h
    simp at h
  | some d =>
    refine ⟨d, rfl, ?_⟩
    by_cases hq : d.quantity_donated < quantity
    · exfalso
      rw [allocate_exceeds db donation_id camp_id quantity d hfind hq] at h
      simp at h
    · refine ⟨by omega, ?_⟩
      by_cases hok : db.failInsert donation_id camp_id quantity = true
      · exfalso
        rw [allocate_fail_insert db donation_id camp_id quantity d hfind hq hok] at h
        simp at h
      · exact (allocate_appends db donation_id camp_id quantity d hfind
          (by omega) (by simpa using hok)).2

/-- C2 witness: a successful 30-unit call on the fresh donation. -/
theorem C2_witness :
    ∃ d, c2db.donations.find? (fun x => x.donation_id == 1) = some d ∧
      (30 : Int) ≤ d.quantity_donated ∧
      (allocate_donation_to_camp c2db 1 1 30).1.allocations
        = c2db.allocations ++ [⟨1, 1, 30⟩] :=
  C2_single_call_bounded c2db 1 1 30 (by decide)

/-- State for C6: one camp short 30 units of type 1, one Pending 50-unit
donation. The first run allocates 30 and leaves the donation Pending (the
status update compares only the single call quantity against the total), so
the second run allocates 30 again. -/
def c6db : DB :=
  { resource_types := [⟨1, "Water"⟩]
    resources := [⟨1, 1, 1, 0, 30, "Water"⟩]
    donations := [⟨1, "Donor", 1, 50, DStatus.Pending, "Water"⟩]
    allocations := []
    failInsert := noFail }

/-- C6: AutoAllocate is not idempotent: on the one-camp state the first run
performs one allocation, and the second run, with no intervening donations
or shortages added, performs one more (the claim predicts 0). -/
theorem C6_counterexample :
    (auto_allocate_donations c6db).2.allocations_made = 1 ∧
    (auto_allocate_donations
        (auto_allocate_donations c6db).1).2.allocations_made = 1 := by
  decide

/-- C6 (amended): AutoAllocate is a no-op exactly when nothing fires; in
particular on any state with no Pending donation it performs 0 allocations
and returns the state unchanged, so a second run is idempotent only for
donations the first run marked Allocated. -/
theorem C6_no_pending_noop (db : DB)
    (h : ∀ d ∈ db.donations, d.status ≠ DStatus.Pending) :
    auto_allocate_donations db = (db, ⟨true, 0⟩) := by
  have hf : db.donations.filter (fun d => decide (d.status = DStatus.Pending)) = [] := by
    rw [List.filter_eq_nil_iff]
    intro d hd
    simpa using h d hd
  simp only [auto_allocate_donations]
  rw [hf]
  rfl

/-- State for the C6 witness: the only donation is already Received. -/
def c6wdb : DB :=
  { resource_types := [⟨1, "Water"⟩]
    resources := [⟨1, 1, 1, 0, 30, "Water"⟩]
    donations := [⟨1, "Donor", 1, 50, DStatus.Received, "Water"⟩]
    allocations := []
    failInsert := noFail }

/-- C6 witness: with no Pending donation, AutoAllocate changes nothing and
reports zero allocations. -/
theorem C6_witness :
    auto_allocate_donations c6wdb = (c6wdb, ⟨true, 0⟩) :=
  C6_no_pending_noop c6wdb (by decide)

/-- State for C7: two camps with an equal shortage of 10 for type 1, stored
with camp 5 before camp 3, and a Pending 15-unit donation. -/
def c7tie : DB :=
  { resource_types := [⟨1, "Water"⟩]
    resources := [⟨1, 5, 1, 0, 10, "Water"⟩, ⟨2, 3, 1, 0, 10, "Water"⟩]
    donations := [⟨1, "Donor", 1, 15, DStatus.Pending, "Water"⟩]
    allocations := []
    failInsert := noFail }

/-- C7: the claimed camp-id-ascending tie-break does not exist: the two
camps tie on shortage amount, yet AutoAllocate serves camp 5 before camp 3
because the stable sort keeps the store row order on ties (the claim
predicts camp 3, the lower id, first). -/
theorem C7_counterexample :
    shortageKey ⟨1, 5, 1, 0, 10, "Water"⟩ = shortageKey ⟨2, 3, 1, 0, 10, "Water"⟩ ∧
    ((auto_allocate_donations c7tie).1.allocations.map Allocation.camp_id)
      = [5, 3] := by
  decide

/-- C7 (amended): shortages are processed in descending order of
quantity_needed minus quantity_available (ties keep the store row order,
with no camp-id tie-break), and the spec scenario holds: the 50-unit
donation goes entirely to Camp 1 (shortage 80 beats the 20 of Camp 2), leaving
derived remaining quantity 0 and status Allocated. -/
theorem C7_desc_order_and_scenario :
    (∀ l : List Resource, List.Sorted shortageGE (sortShortagesDesc l)) ∧
    (auto_allocate_donations scenarioDB).1.allocations = [⟨1, 1, 50⟩] ∧
    ((auto_allocate_donations scenarioDB).1.donations.map Donation.status)
      = [DStatus.Allocated] ∧
    (50 : Int) - allocatedSum (auto_allocate_donations scenarioDB).1 1 = 0 := by
  refine ⟨fun l => List.sorted_insertionSort shortageGE l, by decide, by decide, by decide⟩

/-- Helper: one call of the primitive grows the allocation table by one row
exactly when it succeeds. -/
lemma allocate_len (db : DB) (donation_id camp_id : Nat) (quantity : Int) :
    (allocate_donation_to_camp db donation_id camp_id quantity).1.allocations.length
      = db.allocations.length
        + (if (allocate_donation_to_camp db donation_id camp_id quantity).2.success
             then 1 else 0) := by
  unfold allocate_donation_to_camp DB.allocate_donation DB.set_donation_allocated
  split
  · simp
  · split
    · simp
    · split <;> rename_i db2 heq <;> split at heq <;>
        (injection heq with h1 h2
         first
         | exact absurd h2 (by decide)
         | (subst h1
            split <;> simp_all))

/-- Helper: across the inner shortage loop, the allocation table grows by
exactly the number of counted successes. -/
lemma allocLoop_len (donation_id : Nat) :
    ∀ (l : List Resource) (db : DB) (tracker : Int) (count : Nat),
      (allocLoop donation_id l db tracker count).1.allocations.length + count
        = db.allocations.length + (allocLoop donation_id l db tracker count).2.2 := by
  intro l
  induction l with
  | nil =>
    intro db tracker count
    rfl
  | cons s rest ih =>
    intro db tracker count
    simp only [allocLoop]
    split_ifs with h0 ha hs
    · rfl
    · have h1 := ih (allocate_donation_to_camp db donation_id s.camp_id
        (min tracker (s.quantity_needed - s.quantity_available))).1
        (tracker - min tracker (s.quantity_needed - s.quantity_available)) (count + 1)
      have h2 := allocate_len db donation_id s.camp_id
        (min tracker (s.quantity_needed - s.quantity_available))
      rw [hs] at h2
      simp at h2
      omega
    · have h1 := ih (allocate_donation_to_camp db donation_id s.camp_id
        (min tracker (s.quantity_needed - s.quantity_available))).1
        tracker count
      have h2 := allocate_len db donation_id s.camp_id
        (min tracker (s.quantity_needed - s.quantity_available))
      rw [if_neg hs] at h2
      omega
    · exact ih db tracker count

/-- Helper: one outer-loop donation grows the allocation table by exactly
the counted successes. -/
lemma processDonation_len (db : DB) (d : Donation) (count : Nat) :
    (processDonation db d count).1.allocations.length + count
      = db.allocations.length + (processDonation db d count).2 :=
  allocLoop_len d.donation_id _ db d.quantity_donated count

/-- Helper: across the whole outer loop, the allocation table grows by
exactly the counted successes. -/
lemma autoLoop_len :
    ∀ (l : List Donation) (db : DB) (count : Nat),
      (autoLoop l db count).1.allocations.length + count
        = db.allocations.length + (autoLoop l db count).2 := by
  intro l
  induction l with
  | nil =>
    intro db count
    rfl
  | cons d rest ih =>
    intro db count
    have hstep : autoLoop (d :: rest) db count
        = autoLoop rest (processDonation db d count).1 (processDonation db d count).2 := rfl
    rw [hstep]
    have h1 := ih (processDonation db d count).1 (processDonation db d count).2
    have h2 := processDonation_len db d count
    omega

/-- A completely empty store state. -/
def emptyDB : DB :=
  { resource_types := []
    resources := []
    donations := []
    allocations := []
    failInsert := noFail }

/-- C8: auto_allocate_donations always reports success, its reported count
equals the number of allocation rows it actually inserted (failed single
attempts are skipped, not raised, and do not fail the batch), and zero
allocations is a valid, successful outcome, as on the empty state. -/
theorem C8_auto_success_and_count :
    (∀ db : DB, (auto_allocate_donations db).2.success = true ∧
      (auto_allocate_donations db).1.allocations.length
        = db.allocations.length
          + (auto_allocate_donations db).2.allocations_made) ∧
    auto_allocate_donations emptyDB = (emptyDB, ⟨true, 0⟩) := by
  constructor
  · intro db
    constructor
    · rfl
    · have h := autoLoop_len
        (db.donations.filter (fun d => decide (d.status = DStatus.Pending))) db 0
      show (autoLoop (db.donations.filter
              (fun d => decide (d.status = DStatus.Pending))) db 0).1.allocations.length
        = db.allocations.length
          + (autoLoop (db.donations.filter
              (fun d => decide (d.status = DStatus.Pending))) db 0).2
      omega
  · rfl

/-- C9: the claim predicts statistics never raise; with the store down (no
connection) the uncaught error propagates out of both DonationStatistics
and the root ResourceStatistics instead of yielding zero aggregates. -/
theorem C9_counterexample :
    get_donation_statisticsS Store.down = Except.error () ∧
    get_resource_statisticsS Store.down = Except.error () := by
  exact ⟨rfl, rfl⟩

/-- C9 (amended): statistics are fail-open for SQL-level read failures
(execute_query catches them and returns an empty list, yielding the
zero-valued aggregates), and the src/src/managers copy of
ResourceStatistics is additionally fail-open even with the store down. -/
theorem C9_fail_open_modes :
    get_donation_statisticsS Store.sqlError = Except.ok zeroDonationStats ∧
    get_resource_statisticsS Store.sqlError = Except.ok zeroResourceStats ∧
    get_resource_statistics_nestedS Store.down = zeroResourceStats ∧
    get_resource_statistics_nestedS Store.sqlError = zeroResourceStats := by
  exact ⟨rfl, rfl, rfl, rfl⟩

end DisasterRelief
